import Mathlib

/-!
Verification development for the `eduport-file-manager-task` backend
(Django REST application under `backend/`).

The development shallowly embeds the ingestion / deduplication engine:
the `FileUpload` model (`files/models.py`), the upload, list, bulk-delete
and duplicate-cleanup views (`files/views.py`), the serializers
(`files/serializers.py`), the path / validation helpers (`files/utils.py`)
and the background bulk-upload task (`files/tasks.py`).

Conventions of the embedding:
* Machine integers of the source are `Nat` (sizes, ids, timestamps are
  non-negative in the source's domain).
* Python byte strings are `List Nat`; a Django `UploadedFile` carries its
  content as the list of chunks that `file.chunks()` yields.
* Python string primitives (`split`, `lower`, `in`, slicing, `len`) are
  given executable models over `String.data` so that every definition
  evaluates by kernel reduction.
* `hashlib.sha256` is modelled by its documented incremental contract:
  the hasher state is the sequence of bytes absorbed so far
  (`update` concatenates) and `hexdigest` applies an arbitrary but fixed
  digest function to the absorbed bytes.  All theorems about hashing are
  proved for every digest function.
* Database rows of `files_fileupload` are `FileRecord`s; the table is a
  `List FileRecord`.  The `unique=True` constraint on `file_hash`
  (models.py line 83) is modelled by `dbInsert`, which raises
  `IntegrityError` exactly when the hash is already present.
* `raise`/`except` control flow is `Except String`.
-/

/-! ### Python string primitives -/

/-- Python `s.split(sep)` for a one-character separator (the source only
splits on `'.'`).  `"".split('.') == ['']`, `"a.".split('.') == ['a','']`. -/
def pySplit (sep : Char) : List Char → List (List Char)
  | [] => [[]]
  | c :: cs =>
    match pySplit sep cs with
    | [] => [[]]
    | first :: rest => if c = sep then [] :: first :: rest else (c :: first) :: rest

/-- Does `s` start with `pat`? (auxiliary for substring containment) -/
def listStartsWith (pat s : List Char) : Bool :=
  match pat, s with
  | [], _ => true
  | _ :: _, [] => false
  | p :: ps, c :: cs => p == c && listStartsWith ps cs

/-- Python `pat in s` for strings (substring containment). -/
def listHasSubstr (pat : List Char) : List Char → Bool
  | [] => pat.isEmpty
  | c :: cs => listStartsWith pat (c :: cs) || listHasSubstr pat cs

/-- Python `s.lower()`. -/
def pyLower (s : String) : String := String.mk (s.data.map Char.toLower)

/-- Python `s.split('.')[-1]` (the split list is never empty). -/
def pyLastSplitDot (s : String) : String :=
  String.mk ((pySplit '.' s.data).getLastD [])

/-- Python `c in s` for a single character. -/
def pyContainsChar (s : String) (c : Char) : Bool := s.data.contains c

/-- Python `pat in s` on `String`. -/
def pyHasSub (s pat : String) : Bool := listHasSubstr pat.data s.data

/-- Python `s[:n]`. -/
def pyTake (s : String) (n : Nat) : String := String.mk (s.data.take n)

/-- Python `len(s)`. -/
def pyLen (s : String) : Nat := s.data.length

/-- Python's stable `list.sort(key=...)` / `sorted`, as a structurally
recursive stable insertion sort: `x` is inserted before the first element
it compares `le` to, so earlier list elements stay first among ties. -/
def insertSorted {α : Type} (le : α → α → Bool) (x : α) : List α → List α
  | [] => [x]
  | y :: ys => if le x y then x :: y :: ys else y :: insertSorted le x ys

/-- Stable sort by the boolean preorder `le`. -/
def stableSort {α : Type} (le : α → α → Bool) (l : List α) : List α :=
  l.foldr (insertSorted le) []

/-! ### Byte content and the hasher (`files/models.py`, hashlib) -/

/-- A Python `hashlib.sha256()` object, modelled by the bytes absorbed so
far; `update` appends, per hashlib's documented law
`m.update(a); m.update(b)  ==  m.update(a+b)`. -/
structure Hasher where
  absorbed : List Nat
  deriving Repr, DecidableEq

/-- Python `hasher.update(chunk)`. -/
def Hasher.update (h : Hasher) (chunk : List Nat) : Hasher :=
  { absorbed := h.absorbed ++ chunk }

/-- Python `hasher.hexdigest()`: the hex digest is a fixed function of the bytes
absorbed so far.  The digest function is a parameter; every theorem holds
for all of them. -/
def Hasher.hexdigest (digest : List Nat → String) (h : Hasher) : String :=
  digest h.absorbed

/-- Source `FileUpload.calculate_file_hash_from_file` (models.py lines 183-192).
The file object is `none` for a missing file (`if not file_obj: return
None`), otherwise the list of chunks `file_obj.chunks()` yields.  The
`seek(0)` calls only reset the read position and do not affect the bytes
`chunks()` delivers, so they have no counterpart here. -/
def calculate_file_hash_from_file (digest : List Nat → String) :
    Option (List (List Nat)) → Option String
  | none => none
  | some chunks =>
      some (Hasher.hexdigest digest (chunks.foldl Hasher.update { absorbed := [] }))

/-! ### The metadata record store (`files/models.py`) -/

/-- One row of the `files_fileupload` table, restricted to the columns the
ingestion/dedup/cache logic reads. -/
structure FileRecord where
  id : Nat
  uploaded_by : Nat
  original_filename : String
  description : Option String := none
  file_hash : String
  file_size : Nat
  upload_date : Nat
  file_type : String
  deriving Repr, DecidableEq

/-- The `files_fileupload` table. -/
abbrev Store := List FileRecord

/-- Query `FileUpload.objects.filter(file_hash=h).exists()`. -/
def hashExists (store : Store) (h : String) : Bool :=
  store.any (fun r => r.file_hash == h)

/-- A database `INSERT` of one row.  The `unique=True` constraint on
`file_hash` (models.py line 83) makes the insert raise `IntegrityError`
when a row with the same hash already exists; otherwise the row is
appended. -/
def dbInsert (store : Store) (r : FileRecord) : Except String Store :=
  if hashExists store r.file_hash then
    Except.error "IntegrityError: duplicate key value violates unique constraint on file_hash"
  else
    Except.ok (store ++ [r])

/-- Source `FileUpload.get_file_type` (models.py lines 197-203):
`original_filename.split('.')[-1].lower()` when the name contains a dot,
else `'unknown'`. -/
def get_file_type (original_filename : String) : String :=
  if pyContainsChar original_filename '.' then
    pyLower (pyLastSplitDot original_filename)
  else "unknown"

/-! ### Helpers (`files/utils.py`, `files/models.py`) -/

/-- The extension extraction `filename.split('.')[-1] if '.' in filename
else ''` shared by `user_directory_path` (utils.py line 9, models.py
line 15). -/
def extractExt (filename : String) : String :=
  if pyContainsChar filename '.' then pyLastSplitDot filename else ""

/-- Source `user_directory_path` (utils.py lines 8-12, identical copy in
models.py lines 9-20): `uploads/user_<id>/<hash[:16]>` with `.<ext>`
appended when the filename has a non-empty extension.  (The Python
parameter is named `instance`, a Lean keyword, hence `inst`.) -/
def user_directory_path (inst : FileRecord) (filename : String) : String :=
  let ext := extractExt filename
  let clean_filename :=
    if ext ≠ "" then pyTake inst.file_hash 16 ++ "." ++ ext
    else pyTake inst.file_hash 16
  "uploads/user_" ++ toString inst.uploaded_by ++ "/" ++ clean_filename

/-! ### Single-file upload (`files/serializers.py`, `files/views.py`) -/

/-- A Django `UploadedFile` as the serializers see it: `name`,
`content_type`, `size`, and the content as the chunks `file.chunks()`
yields. -/
structure UploadedFile where
  name : String
  content_type : String
  size : Nat
  chunks : List (List Nat)
  deriving Repr, DecidableEq

/-- The extension allow-list of `FileUploadSerializer.validate_file`
(serializers.py lines 122-125); the same list appears in
`validate_file_type` (utils.py lines 26-29, models.py lines 38-41). -/
def allowed_extensions : List String :=
  ["pdf", "doc", "docx", "txt", "jpg", "jpeg", "png", "gif",
   "mp4", "avi", "mov", "zip", "rar", "csv", "xlsx", "xls"]

/-- The deny-list of `FileUploadSerializer.validate_file`
(serializers.py line 135). -/
def dangerous_extensions : List String :=
  ["exe", "bat", "cmd", "com", "pif", "scr", "vbs", "js"]

/-- Source `FileUploadSerializer.validate_file` (serializers.py lines 102-141):
size at most 100MB, then the lower-cased extension must be in the
allow-list and not in the deny-list. -/
def validate_file (f : UploadedFile) : Except String Unit :=
  if f.size > 100 * 1024 * 1024 then
    Except.error "File size exceeds maximum allowed size."
  else
    let file_extension :=
      if pyContainsChar f.name '.' then pyLower (pyLastSplitDot f.name) else ""
    if ¬ allowed_extensions.contains file_extension then
      Except.error ("File type ." ++ file_extension ++ " is not allowed.")
    else if dangerous_extensions.contains file_extension then
      Except.error ("File type ." ++ file_extension ++ " is not allowed for security reasons.")
    else Except.ok ()

/-- Source `FileUploadSerializer.validate_original_filename` (serializers.py
lines 143-162): non-empty, no `..` / `/` / `\` and at most 255
characters. -/
def validate_original_filename (value : String) : Except String String :=
  if value = "" then
    Except.error "Original filename is required."
  else if pyHasSub value ".." ∨ pyContainsChar value '/' ∨ pyContainsChar value '\\' then
    Except.error "Filename contains invalid characters."
  else if pyLen value > 255 then
    Except.error "Filename is too long (maximum 255 characters)."
  else Except.ok value

/-- HTTP outcomes of the upload endpoints.  `duplicateConflict` is the
structured `{error, detail, existingFileId}` response the spec (section 6)
describes; it is part of the response type so that statements about it can
be made, and no code path of this repository constructs it. -/
inductive UploadResponse where
  | created (ids : List Nat)
  | badRequest (detail : String)
  | serverError (detail : String)
  | duplicateConflict (error detail : String) (existingFileId : Nat)
  deriving Repr, DecidableEq

/-- Is the response the structured duplicate-conflict outcome of spec
section 6? -/
def UploadResponse.isDuplicateConflict : UploadResponse → Bool
  | UploadResponse.duplicateConflict _ _ _ => true
  | _ => false

/-- Source `FileUploadView.create` (views.py lines 148-165) together with
`FileUploadSerializer.create` (serializers.py lines 164-191) and
`FileUpload.save` (models.py lines 163-181).

* the serializer validates `file` with `validate_file`; `original_filename`
  is a required field — DRF generates it from the model's
  `CharField(max_length=255)` (models.py lines 75-78), which has
  `blank=False` and no default, so a request that omits it fails
  `is_valid(raise_exception=True)`; a supplied value is checked by
  `validate_original_filename`.  Every such failure raises and is caught
  by the view's blanket `except Exception`, which returns the generic 500
  body `{'error': 'File upload failed. Please try again.'}` with nothing
  inserted.  (The `if 'original_filename' not in validated_data`
  defaulting in serializers.py lines 179-180 is unreachable from the
  endpoint because the required field never validates when absent.)
* `save` computes `file_type = get_file_type()`, the SHA-256 hash and the
  size, then inserts; an `IntegrityError` from the unique `file_hash`
  constraint propagates through `perform_create`'s re-`raise` into the
  same blanket `except Exception`, again yielding the generic 500. -/
def single_file_upload (digest : List Nat → String) (store : Store)
    (user nextId now : Nat) (f : UploadedFile)
    (original_filename? : Option String) : Store × UploadResponse :=
  match validate_file f with
  | Except.error _ => (store, UploadResponse.serverError "File upload failed. Please try again.")
  | Except.ok _ =>
    match original_filename? with
    | none => (store, UploadResponse.serverError "File upload failed. Please try again.")
    | some n =>
      match validate_original_filename n with
      | Except.error _ =>
          (store, UploadResponse.serverError "File upload failed. Please try again.")
      | Except.ok original_filename =>
        let record : FileRecord :=
          { id := nextId
            uploaded_by := user
            original_filename := original_filename
            file_hash := (calculate_file_hash_from_file digest (some f.chunks)).getD ""
            file_size := f.size
            upload_date := now
            file_type := get_file_type original_filename }
        match dbInsert store record with
        | Except.error _ =>
            (store, UploadResponse.serverError "File upload failed. Please try again.")
        | Except.ok store' => (store', UploadResponse.created [nextId])

/-! ### Bulk upload (`BulkFileUploadSerializer`, `BulkFileUploadView`) -/

/-- Setting `getattr(settings, "MAX_UPLOAD_SIZE", 2621440)` (serializers.py
line 20); the project settings define no `MAX_UPLOAD_SIZE`, so the
default 2.5MB applies. -/
def MAX_UPLOAD_SIZE : Nat := 2621440

/-- Setting `getattr(settings, "ALLOWED_FILE_TYPES", [...])` (serializers.py
lines 21-25); the settings define no `ALLOWED_FILE_TYPES`, so the default
MIME list applies. -/
def ALLOWED_FILE_TYPES : List String :=
  ["image/jpeg", "image/png", "application/pdf"]

/-- The `for file in files` loop of `BulkFileUploadSerializer.validate_files`
(serializers.py lines 27-40): the first size or content-type violation
raises. -/
def validate_files_loop : List UploadedFile → Except String Unit
  | [] => Except.ok ()
  | f :: rest =>
    if f.size > MAX_UPLOAD_SIZE then
      Except.error ("File '" ++ f.name ++ "' exceeds the maximum upload size.")
    else if ¬ ALLOWED_FILE_TYPES.contains f.content_type then
      Except.error ("File type '" ++ f.content_type ++ "' is not allowed for '" ++ f.name ++ "'.")
    else validate_files_loop rest

/-- Source `BulkFileUploadSerializer.validate_files` (serializers.py lines
12-42). -/
def validate_files (files : List UploadedFile) : Except String Unit :=
  if files.isEmpty then Except.error "No files were submitted."
  else validate_files_loop files

/-- The row `FileUpload.objects.create(...)` builds for one file of a bulk
batch (views.py lines 68-74) after `FileUpload.save` (models.py lines
163-181) has run: `original_filename` is `file.name`, the `file_type`
passed by the view (`content_type`) is overwritten by
`get_file_type()`, and hash and size are computed from the file. -/
def mkBulkRecord (digest : List Nat → String) (user nextId now : Nat)
    (f : UploadedFile) : FileRecord :=
  { id := nextId
    uploaded_by := user
    original_filename := f.name
    file_hash := (calculate_file_hash_from_file digest (some f.chunks)).getD ""
    file_size := f.size
    upload_date := now
    file_type := get_file_type f.name }

/-- The rows a fully successful batch appends, in order, with consecutive
ids starting at `nextId`. -/
def bulkRecords (digest : List Nat → String) (user : Nat) :
    Nat → Nat → List UploadedFile → List FileRecord
  | _, _, [] => []
  | nextId, now, f :: rest =>
      mkBulkRecord digest user nextId now f :: bulkRecords digest user (nextId + 1) now rest

/-- The `for uploaded_file in files` loop inside `transaction.atomic()`
(views.py lines 64-87): each file is inserted; the first failing insert
re-`raise`s, which aborts the loop (and, at the caller, rolls the
transaction back). -/
def bulk_create_loop (digest : List Nat → String) (user now : Nat) :
    Store → Nat → List UploadedFile → Except String (Store × List Nat)
  | store, _, [] => Except.ok (store, [])
  | store, nextId, f :: rest =>
    match dbInsert store (mkBulkRecord digest user nextId now f) with
    | Except.error e => Except.error e
    | Except.ok store' =>
      match bulk_create_loop digest user now store' (nextId + 1) rest with
      | Except.error e => Except.error e
      | Except.ok (s, ids) => Except.ok (s, nextId :: ids)

/-- Source `BulkFileUploadView.create` (views.py lines 54-103): serializer
validation first (400 on failure), then the atomic insert loop; any
exception inside the transaction rolls every insert of the batch back and
returns 400; otherwise 201 with all ids. -/
def bulk_file_upload (digest : List Nat → String) (store : Store)
    (user nextId now : Nat) (files : List UploadedFile) : Store × UploadResponse :=
  match validate_files files with
  | Except.error e => (store, UploadResponse.badRequest e)
  | Except.ok _ =>
    match bulk_create_loop digest user now store nextId files with
    | Except.error _ =>
        (store, UploadResponse.badRequest
          "Bulk upload failed. The entire transaction has been rolled back.")
    | Except.ok (store', ids) => (store', UploadResponse.created ids)

/-! ### The Django cache (`django.core.cache`) and `files/utils.py` -/

/-- The shared key-value cache, restricted to integer values (the only
values the embedded code stores). -/
abbrev KV := List (String × Nat)

/-- Django `cache.get`-style lookup. -/
def kv_get (kv : KV) (k : String) : Option Nat :=
  (kv.find? (fun e => e.1 == k)).map (fun e => e.2)

/-- Django `cache.set(k, v)`. -/
def kv_set (kv : KV) (k : String) (v : Nat) : KV :=
  if kv.any (fun e => e.1 == k) then
    kv.map (fun e => if e.1 == k then (e.1, v) else e)
  else kv ++ [(k, v)]

/-- Django `cache.delete(k)`. -/
def kv_delete (kv : KV) (k : String) : KV :=
  kv.filter (fun e => e.1 != k)

/-- Django `cache.incr(k)`: raises `ValueError` when the key is absent. -/
def cache_incr (kv : KV) (k : String) : Except String KV :=
  match kv_get kv k with
  | none => Except.error "ValueError: key not found"
  | some v => Except.ok (kv_set kv k (v + 1))

/-- Source `invalidate_user_file_cache` (utils.py lines 36-43): increment the
per-user version key, initialising it to 2 when absent, and drop the
per-user file-types key. -/
def invalidate_user_file_cache (kv : KV) (user_id : Nat) : KV :=
  let version_key := "user_" ++ toString user_id ++ "_file_list_version"
  let kv1 :=
    match cache_incr kv version_key with
    | Except.ok kv' => kv'
    | Except.error _ => kv_set kv version_key 2
  kv_delete kv1 ("user_" ++ toString user_id ++ "_file_types")

/-! ### Background bulk upload (`files/tasks.py`) -/

/-- The `for file_data in files_data` loop of `process_bulk_upload`
(tasks.py lines 21-41): per file, serializer validation (`file` and the
explicitly passed `original_filename`, which equals the file name); valid
files are saved; an `IntegrityError` (duplicate hash) or a validation
failure only skips that file.  Returns the new table and the number of
successful uploads. -/
def process_bulk_upload_loop (digest : List Nat → String) (user now : Nat) :
    Store → Nat → List UploadedFile → Store × Nat
  | store, _, [] => (store, 0)
  | store, nextId, f :: rest =>
    match validate_file f, validate_original_filename f.name with
    | Except.ok _, Except.ok name =>
      let record : FileRecord :=
        { id := nextId
          uploaded_by := user
          original_filename := name
          file_hash := (calculate_file_hash_from_file digest (some f.chunks)).getD ""
          file_size := f.size
          upload_date := now
          file_type := get_file_type name }
      match dbInsert store record with
      | Except.ok store' =>
        let (s, c) := process_bulk_upload_loop digest user now store' (nextId + 1) rest
        (s, c + 1)
      | Except.error _ => process_bulk_upload_loop digest user now store nextId rest
    | _, _ => process_bulk_upload_loop digest user now store nextId rest

/-- Source `process_bulk_upload` (tasks.py lines 12-45): an unknown user id
aborts; otherwise the per-file loop runs and, when at least one file
succeeded, the uploader's cache is invalidated. -/
def process_bulk_upload (digest : List Nat → String) (users : List Nat)
    (store : Store) (kv : KV) (user_id nextId now : Nat)
    (files : List UploadedFile) : Store × KV :=
  if users.contains user_id then
    let (store', successful_uploads) :=
      process_bulk_upload_loop digest user_id now store nextId files
    (store', if successful_uploads > 0 then invalidate_user_file_cache kv user_id else kv)
  else (store, kv)

/-! ### File listing (`FileListView`, views.py lines 169-245) -/

/-- The query parameters `FileListView.get_queryset` reads.  Size bounds
arrive as raw query strings (the code applies `int(...)` to them). -/
structure ListQueryParams where
  search : Option String := none
  file_type : List String := []
  uploaded_after : Option Nat := none
  uploaded_before : Option Nat := none
  min_size : Option String := none
  max_size : Option String := none
  ordering : Option String := none
  deriving Repr, DecidableEq

/-- Python `int(s)` on a query string, for the non-negative numerals the
embedding deals in; a non-numeral raises `ValueError`. -/
def pyInt (s : String) : Except String Nat :=
  if s.data ≠ [] ∧ s.data.all Char.isDigit then
    Except.ok (s.data.foldl (fun n c => n * 10 + (c.toNat - 48)) 0)
  else Except.error "ValueError: invalid literal for int()"

/-- Python `int(...)` applied to an optional size parameter. -/
def parseSizeParam : Option String → Except String (Option Nat)
  | none => Except.ok none
  | some s => (pyInt s).map some

/-- One `icontains` match (case-insensitive containment); a SQL `NULL`
description never matches. -/
def matchesSearch (q : String) (r : FileRecord) : Bool :=
  listHasSubstr (pyLower q).data (pyLower r.original_filename).data ||
    (match r.description with
     | some d => listHasSubstr (pyLower q).data (pyLower d).data
     | none => false)

/-- The sort keys `FileListView.get_queryset` accepts (views.py lines
234-238). -/
def valid_ordering_fields : List String :=
  ["upload_date", "-upload_date",
   "original_filename", "-original_filename",
   "file_size", "-file_size"]

/-- Django `queryset.order_by(o)` for the six accepted keys (string order on
filenames, numeric order elsewhere; `-` is descending). -/
def orderBy (o : String) (l : List FileRecord) : List FileRecord :=
  if o = "upload_date" then stableSort (fun a b => a.upload_date ≤ b.upload_date) l
  else if o = "-upload_date" then stableSort (fun a b => b.upload_date ≤ a.upload_date) l
  else if o = "original_filename" then
    stableSort (fun a b => decide (a.original_filename ≤ b.original_filename)) l
  else if o = "-original_filename" then
    stableSort (fun a b => decide (b.original_filename ≤ a.original_filename)) l
  else if o = "file_size" then stableSort (fun a b => a.file_size ≤ b.file_size) l
  else stableSort (fun a b => b.file_size ≤ a.file_size) l

/-- Source `FileListView.get_queryset` (views.py lines 192-245): owner scope,
free-text search over filename and description, multi-valued lower-cased
file-type filter, inclusive date range, inclusive size range (`int(...)`
may raise `ValueError`, surfaced as a 500 by the framework), then ordering
restricted to the allow-list with `-upload_date` as fallback.  The two
`int(...)` conversions are hoisted before the filters; the filtered result
is unchanged by this and a `ValueError` aborts the request either way. -/
def file_list_get_queryset (store : Store) (user : Nat) (p : ListQueryParams) :
    Except String (List FileRecord) :=
  match parseSizeParam p.min_size, parseSizeParam p.max_size with
  | Except.ok minN, Except.ok maxN =>
    let qs := store.filter (fun r => r.uploaded_by == user)
    let qs := match p.search with
      | some q => if q ≠ "" then qs.filter (matchesSearch q) else qs
      | none => qs
    let qs := if p.file_type ≠ [] then
        qs.filter (fun r => (p.file_type.map pyLower).contains r.file_type)
      else qs
    let qs := match p.uploaded_after with
      | some d => qs.filter (fun r => r.upload_date ≥ d)
      | none => qs
    let qs := match p.uploaded_before with
      | some d => qs.filter (fun r => r.upload_date ≤ d)
      | none => qs
    let qs := match minN with
      | some n => qs.filter (fun r => r.file_size ≥ n)
      | none => qs
    let qs := match maxN with
      | some n => qs.filter (fun r => r.file_size ≤ n)
      | none => qs
    let ordering := p.ordering.getD "-upload_date"
    Except.ok (if valid_ordering_fields.contains ordering then orderBy ordering qs
      else orderBy "-upload_date" qs)
  | Except.error e, _ => Except.error e
  | _, Except.error e => Except.error e

/-- Source `FileCursorPagination` (views.py lines 169-171): cursor pagination
with `ordering = '-upload_date'` and `page_size = 10`; DRF's cursor
paginator re-orders the queryset by its own ordering and serves the first
page. -/
def file_cursor_paginate (l : List FileRecord) : List FileRecord :=
  (stableSort (fun a b => b.upload_date ≤ a.upload_date) l).take 10

/-- One entry of Django's per-URL response cache (`cache_page`): the cache
key is derived from the request URL, the value is the serialized page
(record ids here), stored with the decorator's timeout. -/
structure PageCacheEntry where
  key : String
  storedAt : Nat
  page : List Nat
  deriving Repr, DecidableEq

/-- The application state the claims about caching range over: the
metadata table, the `cache_page` response cache and the shared key-value
cache holding the per-user version counters of utils.py. -/
structure AppState where
  store : Store
  pageCache : List PageCacheEntry
  kv : KV
  deriving Repr, DecidableEq

/-- Decorator `cache_page(60 * 5)` via `method_decorator` on `FileListView.get`
(views.py line 188). -/
def CACHE_PAGE_SECONDS : Nat := 60 * 5

/-- Source `FileListView.get` (views.py lines 188-190) under `cache_page(60*5)`:
a cached page younger than 300 seconds for the same URL is returned
verbatim without touching the store; otherwise the queryset is computed,
paginated, serialized (to record ids here) and cached.  Only successful
responses are cached.  Nothing here reads the per-user version key of
`invalidate_user_file_cache`. -/
def file_list_get (s : AppState) (now user : Nat) (url : String)
    (p : ListQueryParams) : AppState × Except String (List Nat) :=
  match s.pageCache.find? (fun e => e.key == url && now < e.storedAt + CACHE_PAGE_SECONDS) with
  | some e => (s, Except.ok e.page)
  | none =>
    match file_list_get_queryset s.store user p with
    | Except.error e => (s, Except.error e)
    | Except.ok qs =>
      let page := (file_cursor_paginate qs).map (fun r => r.id)
      ({ s with pageCache := s.pageCache ++ [⟨url, now, page⟩] }, Except.ok page)

/-- Source `FileUploadView` acting on the full application state: the upload
mutates the table only.  The view performs no cache invalidation of any
kind — it touches neither the `cache_page` entries nor the per-user
version key (`invalidate_user_file_cache` is called nowhere in
views.py). -/
def app_single_upload (digest : List Nat → String) (s : AppState)
    (user nextId now : Nat) (f : UploadedFile)
    (original_filename? : Option String) : AppState × UploadResponse :=
  let (store', resp) := single_file_upload digest s.store user nextId now f original_filename?
  ({ s with store := store' }, resp)

/-! ### Duplicate report / cleanup (`duplicate_files_cleanup`, views.py
lines 738-840) -/

/-- One step of the grouping loop (views.py lines 755-760): append the
record to its hash's bucket, creating the bucket at the end on first
sight (Python dict insertion order). -/
def insertGroup (groups : List (String × List FileRecord)) (r : FileRecord) :
    List (String × List FileRecord) :=
  if groups.any (fun g => g.1 == r.file_hash) then
    groups.map (fun g => if g.1 == r.file_hash then (g.1, g.2 ++ [r]) else g)
  else groups ++ [(r.file_hash, [r])]

/-- Python `files.sort(key=lambda x: x.upload_date)` (views.py lines 778, 806):
stable ascending sort, so the retained `files[0]` is the oldest. -/
def sortByUploadDate (files : List FileRecord) : List FileRecord :=
  stableSort (fun a b => a.upload_date ≤ b.upload_date) files

/-- The response bodies `duplicate_files_cleanup` can produce.  `cleaned`
is the success body of views.py lines 819-824; no execution reaches it
(see `fileListView_format_file_size`). -/
inductive CleanupResponse where
  | noDuplicates
  | report (sets : Nat) (total_potential_savings : Nat)
  | cleaned (files_deleted space_saved : Nat) (space_saved_display : String)
  | serverError (detail : String)
  deriving Repr, DecidableEq

/-- views.py line 823 evaluates `FileListView()._format_file_size`.  The
class `FileListView` (views.py lines 174-245) defines no attribute of
that name — its members are `serializer_class`, `permission_classes`,
`pagination_class`, `get` and `get_queryset` — so the attribute lookup
raises `AttributeError`.  `none` is the absent attribute. -/
def fileListView_format_file_size : Option (Nat → String) := none

/-- Source `duplicate_files_cleanup` (views.py lines 738-840).  The user's
records (queryset order `-upload_date`, models.py line 148) are grouped
by hash; groups of one are dropped.  Without `cleanup` the duplicate
report is returned.  With `cleanup=True` every record but the oldest of
each group is deleted inside `transaction.atomic()`; the transaction
commits when the `with` block exits, after which the success body is
built — where the `FileListView()._format_file_size` lookup raises
`AttributeError`, caught by the outer `except Exception` which returns
the generic 500 body.  The deletions stay committed. -/
def duplicate_files_cleanup (store : Store) (user : Nat) (cleanup : Bool) :
    Store × CleanupResponse :=
  let user_files := stableSort (fun a b => b.upload_date ≤ a.upload_date)
    (store.filter (fun r => r.uploaded_by == user))
  let duplicate_groups := user_files.foldl insertGroup []
  let actual_duplicates := duplicate_groups.filter (fun g => g.2.length > 1)
  if actual_duplicates.isEmpty then
    (store, CleanupResponse.noDuplicates)
  else if cleanup then
    let duplicates_to_delete :=
      (actual_duplicates.map (fun g => (sortByUploadDate g.2).drop 1)).flatten
    let total_saved_space := (duplicates_to_delete.map (fun r => r.file_size)).sum
    let total_deleted := duplicates_to_delete.length
    let store' := store.filter (fun r => ¬ duplicates_to_delete.any (fun d => d.id == r.id))
    match fileListView_format_file_size with
    | none => (store', CleanupResponse.serverError "Failed to process duplicate files.")
    | some fmt =>
        (store', CleanupResponse.cleaned total_deleted total_saved_space (fmt total_saved_space))
  else
    let total_potential_savings :=
      (actual_duplicates.map (fun g =>
        (((sortByUploadDate g.2).drop 1).map (fun r => r.file_size)).sum)).sum
    (store, CleanupResponse.report actual_duplicates.length total_potential_savings)

/-! ### Bulk delete (`BulkDeleteSerializer`, `bulk_delete_files`) -/

/-- The responses of `bulk_delete_files` (views.py lines 541-590). -/
inductive BulkDeleteResponse where
  | ok (deleted_count : Nat) (deleted_files : List String)
  | badRequest (detail : String)
  deriving Repr, DecidableEq

/-- Source `bulk_delete_files` (views.py lines 541-590) with
`BulkDeleteSerializer` (serializers.py lines 342-390):

* the `file_ids` list field enforces `min_length=1, max_length=100`;
* `validate_file_ids` rejects when any id has no row owned by the
  requesting user;
* `validate_confirm` rejects unless the flag is `True` (the field
  defaults to `False`, and the method also runs on the default, so an
  absent flag is rejected too);
* only when the serializer is valid are exactly the rows with a requested
  id and the requesting owner deleted. -/
def bulk_delete_files (store : Store) (user : Nat) (file_ids : List Nat)
    (confirm : Bool) : Store × BulkDeleteResponse :=
  if file_ids.length < 1 ∨ file_ids.length > 100 then
    (store, BulkDeleteResponse.badRequest "file_ids length out of bounds")
  else if file_ids.filter
      (fun i => ¬ store.any (fun r => r.id == i && r.uploaded_by == user)) ≠ [] then
    (store, BulkDeleteResponse.badRequest "Files not found or not owned by user")
  else if ¬ confirm then
    (store, BulkDeleteResponse.badRequest "Bulk deletion requires explicit confirmation.")
  else
    let files_to_delete := store.filter (fun r => file_ids.contains r.id && r.uploaded_by == user)
    (store.filter (fun r => ¬ (file_ids.contains r.id && r.uploaded_by == user)),
     BulkDeleteResponse.ok files_to_delete.length
       (files_to_delete.map (fun r => r.original_filename)))

/-! ### The invariant of claim C1 -/

/-- The global content-hash uniqueness invariant: any two rows with the
same hash are the same row. -/
def hashInjective (store : Store) : Prop :=
  ∀ a ∈ store, ∀ b ∈ store, a.file_hash = b.file_hash → a = b

/-! ### Concrete test fixtures (used by witnesses and counterexamples) -/

/-- A concrete digest function for concrete runs (any function works for
the universally quantified theorems). -/
def digest0 : List Nat → String := fun bs => toString bs

/-- A valid upload: 3-byte `.txt` file delivered in one chunk. -/
def fileA : UploadedFile :=
  { name := "a.txt", content_type := "text/plain", size := 3, chunks := [[1, 2, 3]] }

/-- The same 3 bytes as `fileA`, differently named and differently
chunked. -/
def fileB : UploadedFile :=
  { name := "b.txt", content_type := "text/plain", size := 3, chunks := [[1], [2, 3]] }

/-- A valid `.pdf` upload. -/
def filePdf : UploadedFile :=
  { name := "a.pdf", content_type := "application/pdf", size := 4, chunks := [[9, 9, 9, 9]] }

/-- The table after user 1 uploads `fileA` (supplying the required
`original_filename`) into an empty system. -/
def demoStore1 : Store := (single_file_upload digest0 [] 1 1 0 fileA (some "a.txt")).1

/-- Empty application state. -/
def s0 : AppState := { store := [], pageCache := [], kv := [] }

/-- The list URL (all default query parameters). -/
def c4_url : String := "/api/files/"

/-- Default (empty) query parameters. -/
def p0 : ListQueryParams := {}

/-- State after user 1 lists at t=0 (caches the empty page). -/
def c4_s1 : AppState := (file_list_get s0 0 1 c4_url p0).1

/-- State after user 1 additionally uploads `fileA` at t=10 (a complete
request supplying the required `original_filename`); the upload view
touches no cache. -/
def c4_s2 : AppState := (app_single_upload digest0 c4_s1 1 1 10 fileA (some "a.txt")).1

/-- Three records of owner 1 sharing hash `"h"`, uploaded at times
10 < 20 < 30 with sizes 100, 200, 300. -/
def rec61 : FileRecord :=
  { id := 1, uploaded_by := 1, original_filename := "a.txt", file_hash := "h",
    file_size := 100, upload_date := 10, file_type := "txt" }

/-- Second record of the duplicate group (t=20, 200 bytes). -/
def rec62 : FileRecord :=
  { id := 2, uploaded_by := 1, original_filename := "b.txt", file_hash := "h",
    file_size := 200, upload_date := 20, file_type := "txt" }

/-- Third record of the duplicate group (t=30, 300 bytes). -/
def rec63 : FileRecord :=
  { id := 3, uploaded_by := 1, original_filename := "c.txt", file_hash := "h",
    file_size := 300, upload_date := 30, file_type := "txt" }

/-- The store holding the duplicate group. -/
def store6 : Store := [rec61, rec62, rec63]

/-- A 700-byte record of owner 1. -/
def rec7 : FileRecord :=
  { id := 1, uploaded_by := 1, original_filename := "r.txt", file_hash := "h7",
    file_size := 700, upload_date := 5, file_type := "txt" }

/-- Inverted size range: `min_size=1000`, `max_size=500`. -/
def p7 : ListQueryParams := { min_size := some "1000", max_size := some "500" }

/-- Application state holding only `rec7`. -/
def s7 : AppState := { store := [rec7], pageCache := [], kv := [] }

/-- Two records of owner 7 with the same 64-char hash but different
filenames (path-derivation witnesses). -/
def recP1 : FileRecord :=
  { id := 1, uploaded_by := 7, original_filename := "a.txt",
    file_hash := "0123456789abcdef0123456789abcdef0123456789abcdef0123456789abcdef",
    file_size := 1, upload_date := 0, file_type := "txt" }

/-- Same owner and hash as `recP1`, different filename. -/
def recP2 : FileRecord :=
  { id := 2, uploaded_by := 7, original_filename := "b.txt",
    file_hash := "0123456789abcdef0123456789abcdef0123456789abcdef0123456789abcdef",
    file_size := 2, upload_date := 1, file_type := "txt" }

/-- Two records owned by user 1 (bulk-delete witnesses). -/
def store9 : Store :=
  [{ id := 1, uploaded_by := 1, original_filename := "a.txt", file_hash := "ha",
     file_size := 10, upload_date := 1, file_type := "txt" },
   { id := 2, uploaded_by := 1, original_filename := "b.txt", file_hash := "hb",
     file_size := 20, upload_date := 2, file_type := "txt" }]

/-! ## Theorems -/

/-- Folding `update` over chunks absorbs exactly their concatenation. -/
theorem foldl_update_absorbed (chunks : List (List Nat)) (h : Hasher) :
    (chunks.foldl Hasher.update h).absorbed = h.absorbed ++ chunks.flatten := by
  induction chunks generalizing h with
  | nil => simp
  | cons c cs ih =>
    simp only [List.foldl_cons, List.flatten_cons, ih, Hasher.update, List.append_assoc]

/-- C2: Hasher chunk-independence — `calculate_file_hash_from_file`
depends only on the concatenation of the chunks: any two chunkings of the
same byte content yield the same digest string, for every digest
function. -/
theorem hash_chunk_independence (digest : List Nat → String)
    (cs1 cs2 : List (List Nat)) (h : cs1.flatten = cs2.flatten) :
    calculate_file_hash_from_file digest (some cs1)
      = calculate_file_hash_from_file digest (some cs2) := by
  simp only [calculate_file_hash_from_file, Hasher.hexdigest,
    foldl_update_absorbed, List.nil_append, h]

/-- Witness for C2: `[1] ++ [2,3]` and `[1,2] ++ [3]` are the same bytes
and hash identically. -/
theorem hash_chunk_independence_witness :
    ([[1], [2, 3]] : List (List Nat)).flatten = ([[1, 2], [3]] : List (List Nat)).flatten
    ∧ calculate_file_hash_from_file digest0 (some [[1], [2, 3]])
        = calculate_file_hash_from_file digest0 (some [[1, 2], [3]]) :=
  ⟨by decide, hash_chunk_independence digest0 [[1], [2, 3]] [[1, 2], [3]] (by decide)⟩

/-- C8: the storage path is the deterministic function of
(owner id, content hash, extension) the spec describes: equal owner, hash
and extracted extension give equal paths (whatever the rest of the
filenames), and the path is
`uploads/user_<id>/<first-16-chars-of-hash>` plus `.<ext>` exactly when
the filename carries a non-empty extension. -/
theorem storage_path_deterministic (r1 r2 : FileRecord) (f1 f2 : String)
    (howner : r1.uploaded_by = r2.uploaded_by)
    (hhash : r1.file_hash = r2.file_hash)
    (hext : extractExt f1 = extractExt f2) :
    user_directory_path r1 f1 = user_directory_path r2 f2
    ∧ user_directory_path r1 f1 =
        "uploads/user_" ++ toString r1.uploaded_by ++ "/" ++
          (if extractExt f1 = "" then pyTake r1.file_hash 16
           else pyTake r1.file_hash 16 ++ "." ++ extractExt f1) := by
  constructor
  · simp only [user_directory_path, howner, hhash, hext]
  · simp only [user_directory_path]
    by_cases hempty : extractExt f1 = ""
    · simp [hempty]
    · simp [hempty]

/-- Witness for C8: same owner and hash, two different `.txt` filenames,
same derived path. -/
theorem storage_path_deterministic_witness :
    user_directory_path recP1 "a.txt" = user_directory_path recP2 "b.txt" :=
  (storage_path_deterministic recP1 recP2 "a.txt" "b.txt" rfl rfl rfl).1

/-- A successful run of the atomic insert loop appends exactly the batch's
records. -/
theorem bulk_create_loop_ok (digest : List Nat → String) (user now : Nat) :
    ∀ (files : List UploadedFile) (store : Store) (nextId : Nat)
      (s' : Store) (ids : List Nat),
      bulk_create_loop digest user now store nextId files = Except.ok (s', ids) →
      s' = store ++ bulkRecords digest user nextId now files := by
  intro files
  induction files with
  | nil =>
    intro store nextId s' ids h
    simp only [bulk_create_loop, Except.ok.injEq, Prod.mk.injEq] at h
    simp [← h.1, bulkRecords]
  | cons f rest ih =>
    intro store nextId s' ids h
    simp only [bulk_create_loop] at h
    cases hins : dbInsert store (mkBulkRecord digest user nextId now f) with
    | error e => rw [hins] at h; cases h
    | ok store1 =>
      rw [hins] at h
      dsimp only at h
      cases hrec : bulk_create_loop digest user now store1 (nextId + 1) rest with
      | error e => rw [hrec] at h; cases h
      | ok p =>
        rw [hrec] at h
        dsimp only at h
        obtain ⟨s2, ids2⟩ := p
        simp only [Except.ok.injEq, Prod.mk.injEq] at h
        have hstep := ih store1 (nextId + 1) s2 ids2 hrec
        have hstore1 : store1 = store ++ [mkBulkRecord digest user nextId now f] := by
          unfold dbInsert at hins
          by_cases hx : hashExists store (mkBulkRecord digest user nextId now f).file_hash
          · simp [hx] at hins
          · simp [hx] at hins; exact hins.symm
        subst hstore1
        rw [← h.1, hstep, bulkRecords]
        simp

/-- The loop builds one record per file. -/
theorem bulkRecords_length (digest : List Nat → String) (user : Nat) :
    ∀ (files : List UploadedFile) (nextId now : Nat),
      (bulkRecords digest user nextId now files).length = files.length := by
  intro files
  induction files with
  | nil => intro nextId now; rfl
  | cons f rest ih => intro nextId now; simp [bulkRecords, ih]

/-- C3: atomic bulk upload — either the request fails (validation failure
or any failing insert, including a duplicate-hash `IntegrityError`) and
the table is exactly what it was, or the call succeeds and the table is
the old table plus one record per file of the batch. -/
theorem bulk_upload_atomic (digest : List Nat → String) (store : Store)
    (user nextId now : Nat) (files : List UploadedFile) :
    (∃ e, bulk_file_upload digest store user nextId now files
        = (store, UploadResponse.badRequest e))
    ∨ (∃ ids, bulk_file_upload digest store user nextId now files
        = (store ++ bulkRecords digest user nextId now files, UploadResponse.created ids)
        ∧ (bulkRecords digest user nextId now files).length = files.length) := by
  unfold bulk_file_upload
  cases hv : validate_files files with
  | error e => exact Or.inl ⟨e, rfl⟩
  | ok _ =>
    cases hloop : bulk_create_loop digest user now store nextId files with
    | error e =>
      exact Or.inl ⟨"Bulk upload failed. The entire transaction has been rolled back.", rfl⟩
    | ok p =>
      obtain ⟨s', ids⟩ := p
      have := bulk_create_loop_ok digest user now files store nextId s' ids hloop
      subst this
      exact Or.inr ⟨ids, rfl, bulkRecords_length digest user files nextId now⟩

/-- A successful `dbInsert` (guarded by the unique constraint) preserves
hash-injectivity. -/
theorem dbInsert_preserves_hashInjective (store : Store) (r : FileRecord)
    (s' : Store) (h : dbInsert store r = Except.ok s')
    (inj : hashInjective store) : hashInjective s' := by
  unfold dbInsert at h
  by_cases hx : hashExists store r.file_hash
  · simp [hx] at h
  · simp [hx] at h
    have hfresh : ∀ x ∈ store, x.file_hash ≠ r.file_hash := by
      intro x hxmem heq
      apply hx
      simp only [hashExists, List.any_eq_true]
      exact ⟨x, hxmem, by simp [heq]⟩
    subst h
    intro a ha b hb heq
    rcases List.mem_append.mp ha with ha' | ha' <;>
      rcases List.mem_append.mp hb with hb' | hb'
    · exact inj a ha' b hb' heq
    · have hbr := List.mem_singleton.mp hb'
      subst hbr
      exact absurd heq (hfresh a ha')
    · have har := List.mem_singleton.mp ha'
      subst har
      exact absurd heq.symm (hfresh b hb')
    · rw [List.mem_singleton.mp ha', List.mem_singleton.mp hb']

/-- The atomic bulk-insert loop preserves hash-injectivity. -/
theorem bulk_create_loop_preserves (digest : List Nat → String) (user now : Nat) :
    ∀ (files : List UploadedFile) (store : Store) (nextId : Nat)
      (s' : Store) (ids : List Nat),
      bulk_create_loop digest user now store nextId files = Except.ok (s', ids) →
      hashInjective store → hashInjective s' := by
  intro files
  induction files with
  | nil =>
    intro store nextId s' ids h inj
    simp only [bulk_create_loop, Except.ok.injEq, Prod.mk.injEq] at h
    rw [← h.1]; exact inj
  | cons f rest ih =>
    intro store nextId s' ids h inj
    simp only [bulk_create_loop] at h
    cases hins : dbInsert store (mkBulkRecord digest user nextId now f) with
    | error e => rw [hins] at h; cases h
    | ok store1 =>
      rw [hins] at h
      dsimp only at h
      cases hrec : bulk_create_loop digest user now store1 (nextId + 1) rest with
      | error e => rw [hrec] at h; cases h
      | ok p =>
        rw [hrec] at h
        dsimp only at h
        obtain ⟨s2, ids2⟩ := p
        simp only [Except.ok.injEq, Prod.mk.injEq] at h
        rw [← h.1]
        exact ih store1 (nextId + 1) s2 ids2 hrec
          (dbInsert_preserves_hashInjective store _ store1 hins inj)

/-- The best-effort background loop preserves hash-injectivity. -/
theorem process_bulk_upload_loop_preserves (digest : List Nat → String) (user now : Nat) :
    ∀ (files : List UploadedFile) (store : Store) (nextId : Nat),
      hashInjective store →
      hashInjective (process_bulk_upload_loop digest user now store nextId files).1 := by
  intro files
  induction files with
  | nil => intro store nextId inj; exact inj
  | cons f rest ih =>
    intro store nextId inj
    simp only [process_bulk_upload_loop]
    cases hvf : validate_file f with
    | error e => exact ih store nextId inj
    | ok _ =>
      cases hvn : validate_original_filename f.name with
      | error e => exact ih store nextId inj
      | ok name =>
        dsimp only
        cases hins : dbInsert store
            { id := nextId, uploaded_by := user, original_filename := name,
              file_hash := (calculate_file_hash_from_file digest (some f.chunks)).getD "",
              file_size := f.size, upload_date := now,
              file_type := get_file_type name } with
        | ok store1 =>
          dsimp only
          have h1 := ih store1 (nextId + 1)
            (dbInsert_preserves_hashInjective store _ store1 hins inj)
          cases hres : process_bulk_upload_loop digest user now store1 (nextId + 1) rest with
          | mk s c => rw [hres] at h1; exact h1
        | error e => exact ih store nextId inj

/-- The single-upload endpoint preserves hash-injectivity. -/
theorem single_file_upload_preserves (digest : List Nat → String) (store : Store)
    (user nextId now : Nat) (f : UploadedFile) (original_filename? : Option String)
    (inj : hashInjective store) :
    hashInjective (single_file_upload digest store user nextId now f original_filename?).1 := by
  unfold single_file_upload
  cases hvf : validate_file f with
  | error e => exact inj
  | ok _ =>
    dsimp only
    cases original_filename? with
    | none => exact inj
    | some n =>
      dsimp only
      cases hvn : validate_original_filename n with
      | error e => exact inj
      | ok original_filename =>
        dsimp only
        cases hins : dbInsert store
            { id := nextId, uploaded_by := user, original_filename := original_filename,
              file_hash := (calculate_file_hash_from_file digest (some f.chunks)).getD "",
              file_size := f.size, upload_date := now,
              file_type := get_file_type original_filename } with
        | error e => exact inj
        | ok store' => exact dbInsert_preserves_hashInjective store _ store' hins inj

/-- C1: the global content-hash uniqueness invariant — two stored records
with equal hash are equal — is preserved by every inserting operation:
the single upload view, the bulk upload view and the background bulk
upload task.  Submitting content whose hash is already stored never
yields a second record with that hash (the guarded insert rejects it). -/
theorem hash_uniqueness_invariant_preserved (digest : List Nat → String)
    (store : Store) (kv : KV) (users : List Nat)
    (user nextId now user_id : Nat) (f : UploadedFile)
    (original_filename? : Option String) (files : List UploadedFile)
    (inj : hashInjective store) :
    hashInjective (single_file_upload digest store user nextId now f original_filename?).1
    ∧ hashInjective (bulk_file_upload digest store user nextId now files).1
    ∧ hashInjective (process_bulk_upload digest users store kv user_id nextId now files).1 := by
  refine ⟨single_file_upload_preserves digest store user nextId now f original_filename? inj,
    ?_, ?_⟩
  · unfold bulk_file_upload
    cases hv : validate_files files with
    | error e => exact inj
    | ok _ =>
      dsimp only
      cases hloop : bulk_create_loop digest user now store nextId files with
      | error e => exact inj
      | ok p =>
        obtain ⟨s', ids'⟩ := p
        dsimp only
        exact bulk_create_loop_preserves digest user now files store nextId s' ids' hloop inj
  · unfold process_bulk_upload
    by_cases hu : users.contains user_id
    · simp only [hu, if_true]
      have h1 := process_bulk_upload_loop_preserves digest user_id now files store nextId inj
      cases hres : process_bulk_upload_loop digest user_id now store nextId files with
      | mk s c => rw [hres] at h1; exact h1
    · simp only [hu, if_false]
      simpa using inj

/-- Witness for C1: the empty table is hash-injective and stays so across
uploading `fileA` (with its required `original_filename`) by each
operation. -/
theorem hash_uniqueness_invariant_preserved_witness :
    hashInjective (single_file_upload digest0 [] 1 1 0 fileA (some "a.txt")).1
    ∧ hashInjective (bulk_file_upload digest0 [] 1 1 0 [fileA]).1
    ∧ hashInjective (process_bulk_upload digest0 [1] [] [] 1 1 0 [fileA]).1 :=
  hash_uniqueness_invariant_preserved digest0 [] [] [1] 1 1 0 1 fileA (some "a.txt") [fileA]
    (fun a ha => absurd ha (List.not_mem_nil a))

/-- C5 (amended): when the upload's content hash is already stored, the
single-upload endpoint returns the generic 500 body
`{'error': 'File upload failed. Please try again.'}` and creates no
record — not a structured duplicate conflict. -/
theorem duplicate_upload_returns_generic_error (digest : List Nat → String)
    (store : Store) (user nextId now : Nat) (f : UploadedFile)
    (original_filename? : Option String)
    (hdup : hashExists store
      ((calculate_file_hash_from_file digest (some f.chunks)).getD "") = true) :
    single_file_upload digest store user nextId now f original_filename?
      = (store, UploadResponse.serverError "File upload failed. Please try again.") := by
  unfold single_file_upload
  cases hvf : validate_file f with
  | error e => rfl
  | ok _ =>
    dsimp only
    cases original_filename? with
    | none => rfl
    | some n =>
      dsimp only
      cases hvn : validate_original_filename n with
      | error e => rfl
      | ok original_filename =>
        dsimp only
        rw [dbInsert]
        simp only [hdup, if_true]

/-- Witness for the amended C5: re-submitting `fileA`'s bytes (as `fileB`,
a complete request supplying `original_filename`) after `fileA` is stored
yields the generic 500 and leaves the table unchanged. -/
theorem duplicate_upload_returns_generic_error_witness :
    single_file_upload digest0 demoStore1 1 2 1 fileB (some "b.txt")
      = (demoStore1, UploadResponse.serverError "File upload failed. Please try again.") :=
  duplicate_upload_returns_generic_error digest0 demoStore1 1 2 1 fileB (some "b.txt") rfl

/-- Counterexample to C5 as stated: at a concrete hash collision the
response is the generic `serverError`, not the structured
`{error, detail, existingFileId}` duplicate conflict, although the
record is indeed not created. -/
theorem duplicate_upload_counterexample :
    (single_file_upload digest0 demoStore1 1 2 1 fileB (some "b.txt")).2
        = UploadResponse.serverError "File upload failed. Please try again."
    ∧ (single_file_upload digest0 demoStore1 1 2 1 fileB (some "b.txt")).2.isDuplicateConflict
        = false
    ∧ (single_file_upload digest0 demoStore1 1 2 1 fileB (some "b.txt")).1 = demoStore1 :=
  ⟨rfl, rfl, rfl⟩

/-- Counterexample to C4 as stated: user 1 lists at t=0 (the empty page is
cached), uploads at t=10, and lists again at t=20 with the same URL — the
endpoint returns the cached pre-mutation page `[]`, while the same query
against the same table with an empty cache returns the uploaded record. -/
theorem list_cache_stale_read_counterexample :
    (file_list_get c4_s2 20 1 c4_url p0).2 = Except.ok []
    ∧ (file_list_get { c4_s2 with pageCache := [] } 20 1 c4_url p0).2 = Except.ok [1]
    ∧ c4_s2.store.map (fun r => r.id) = [1] :=
  ⟨rfl, rfl, rfl⟩

/-- C4 (amended): the single-upload view performs no cache invalidation —
it leaves the `cache_page` entries and the per-user version key exactly as
they were — and a list request is served fresh from the table only when no
cached page for its URL is younger than the 300-second TTL.  Hence a list
within the TTL of a previously cached page returns that page even if an
upload committed in between (the background task's
`invalidate_user_file_cache` touches only the version key, which the list
view never reads). -/
theorem list_cache_behavior :
    (∀ (digest : List Nat → String) (s : AppState) (user nextId now : Nat)
        (f : UploadedFile) (original_filename? : Option String),
      (app_single_upload digest s user nextId now f original_filename?).1.pageCache
          = s.pageCache
      ∧ (app_single_upload digest s user nextId now f original_filename?).1.kv = s.kv)
    ∧ (∀ (s : AppState) (now user : Nat) (url : String) (p : ListQueryParams),
      s.pageCache.find?
          (fun e => e.key == url && now < e.storedAt + CACHE_PAGE_SECONDS) = none →
      (file_list_get s now user url p).2
        = (file_list_get_queryset s.store user p).map
            (fun qs => (file_cursor_paginate qs).map (fun r => r.id))) := by
  constructor
  · intro digest s user nextId now f original_filename?
    unfold app_single_upload
    cases h : single_file_upload digest s.store user nextId now f original_filename? with
    | mk store' resp => exact ⟨rfl, rfl⟩
  · intro s now user url p hmiss
    unfold file_list_get
    rw [hmiss]
    dsimp only
    cases hq : file_list_get_queryset s.store user p with
    | error e => rfl
    | ok qs => rfl

/-- Witness for the amended C4: on the empty state (no cached entry) the
list response is exactly the freshly computed page. -/
theorem list_cache_behavior_witness :
    (file_list_get s0 0 1 c4_url p0).2
      = (file_list_get_queryset s0.store 1 p0).map
          (fun qs => (file_cursor_paginate qs).map (fun r => r.id)) :=
  list_cache_behavior.2 s0 0 1 c4_url p0 rfl

/-- C6: at the failing input — three records of one owner sharing one hash
at t1 < t2 < t3 — `duplicate_files_cleanup` with the cleanup flag does
delete the two newer records (only the t1 record remains, all 500
reclaimed bytes of t2 and t3 gone from the table), but the response is the
generic 500 `'Failed to process duplicate files.'` instead of the success
body reporting `space_saved`: building that body evaluates the
non-existent `FileListView()._format_file_size` and the resulting
`AttributeError` is caught by the blanket `except Exception` after the
transaction has already committed. -/
theorem duplicate_cleanup_deletes_then_500 :
    duplicate_files_cleanup store6 1 true
      = ([rec61], CleanupResponse.serverError "Failed to process duplicate files.") :=
  rfl

/-- Both size bounds applied with an inverted range select nothing. -/
theorem filter_size_range_empty (l : List FileRecord) (n n' : Nat) (h : n' < n) :
    (l.filter (fun r => r.file_size ≥ n)).filter (fun r => r.file_size ≤ n') = [] := by
  rw [List.eq_nil_iff_forall_not_mem]
  intro r hr
  rw [List.mem_filter] at hr
  obtain ⟨hr1, hle⟩ := hr
  rw [List.mem_filter] at hr1
  obtain ⟨_, hge⟩ := hr1
  simp only [decide_eq_true_eq] at hle hge
  omega

/-- Every accepted sort key sorts the empty queryset to itself. -/
theorem orderBy_nil (o : String) : orderBy o [] = [] := by
  unfold orderBy stableSort
  split_ifs <;> rfl

/-- C7 (amended): the list endpoint does not reject an inverted size
range: both bounds are applied as ordinary filters and the request
succeeds with the (necessarily empty) page computed from the store.  (The
`FileSearchSerializer.validate` cross-field check that would reject it is
never invoked by `FileListView`.) -/
theorem inverted_size_range_gives_empty_page (store : Store) (user : Nat)
    (p : ListQueryParams) (m M : String) (n n' : Nat)
    (hmin : p.min_size = some m) (hmax : p.max_size = some M)
    (hm : pyInt m = Except.ok n) (hM : pyInt M = Except.ok n') (hlt : n' < n) :
    file_list_get_queryset store user p = Except.ok [] := by
  unfold file_list_get_queryset
  rw [hmin, hmax]
  simp only [parseSizeParam, hm, hM, Except.map]
  rw [filter_size_range_empty _ n n' hlt, orderBy_nil, orderBy_nil, ite_self]

/-- Witness for the amended C7: `min_size=1000, max_size=500` against a
store holding a 700-byte record yields the empty success page. -/
theorem inverted_size_range_gives_empty_page_witness :
    file_list_get_queryset [rec7] 1 p7 = Except.ok [] :=
  inverted_size_range_gives_empty_page [rec7] 1 p7 "1000" "500" 1000 500
    rfl rfl rfl rfl (by decide)

/-- Counterexample to C7 as stated: the request with `min_size=1000,
max_size=500` is not rejected — the endpoint queries the store (which
holds a 700-byte record) and returns a normal empty page. -/
theorem inverted_size_range_counterexample :
    (file_list_get s7 0 1 "/api/files/?min_size=1000&max_size=500" p7).2 = Except.ok []
    ∧ s7.store = [rec7] :=
  ⟨rfl, rfl⟩

/-- C9: bulk delete is guarded — without the explicit confirmation flag,
or with any id that is not a file of the requesting user, the request is
rejected and the table is untouched; and whenever the endpoint answers
successfully, exactly the rows with a requested id and the requesting
owner are gone. -/
theorem bulk_delete_guarded (store : Store) (user : Nat) (file_ids : List Nat)
    (confirm : Bool) :
    (confirm = false →
      (bulk_delete_files store user file_ids confirm).1 = store
      ∧ ∃ e, (bulk_delete_files store user file_ids confirm).2
          = BulkDeleteResponse.badRequest e)
    ∧ ((∃ i ∈ file_ids, ∀ r ∈ store, ¬ (r.id = i ∧ r.uploaded_by = user)) →
      (bulk_delete_files store user file_ids confirm).1 = store
      ∧ ∃ e, (bulk_delete_files store user file_ids confirm).2
          = BulkDeleteResponse.badRequest e)
    ∧ (∀ n fs, (bulk_delete_files store user file_ids confirm).2
          = BulkDeleteResponse.ok n fs →
      (bulk_delete_files store user file_ids confirm).1
        = store.filter (fun r => ¬ (file_ids.contains r.id && r.uploaded_by == user))) := by
  unfold bulk_delete_files
  split_ifs with h1 h2 h3
  · exact ⟨fun _ => ⟨rfl, _, rfl⟩, fun _ => ⟨rfl, _, rfl⟩, fun n fs h => by cases h⟩
  · exact ⟨fun _ => ⟨rfl, _, rfl⟩, fun _ => ⟨rfl, _, rfl⟩, fun n fs h => by cases h⟩
  · refine ⟨fun hc => absurd h3 (by simp [hc]), fun hbad => ?_, fun n fs _ => rfl⟩
    exfalso
    obtain ⟨i, hi, hall⟩ := hbad
    have hmem : i ∈ file_ids.filter
        (fun i => ¬ store.any (fun r => r.id == i && r.uploaded_by == user)) := by
      rw [List.mem_filter]
      refine ⟨hi, ?_⟩
      simp only [decide_eq_true_eq]
      intro hany
      rw [List.any_eq_true] at hany
      obtain ⟨r, hrmem, hrp⟩ := hany
      rw [Bool.and_eq_true, beq_iff_eq, beq_iff_eq] at hrp
      exact hall r hrmem ⟨hrp.1, hrp.2⟩
    exact h2 (List.ne_nil_of_mem hmem)
  · exact ⟨fun _ => ⟨rfl, _, rfl⟩, fun _ => ⟨rfl, _, rfl⟩, fun n fs h => by cases h⟩

/-- Witness for C9: deleting file 2 of user 1 with confirmation removes
exactly that file. -/
theorem bulk_delete_guarded_witness :
    (bulk_delete_files store9 1 [2] true).1
      = store9.filter (fun r => ¬ (([2] : List Nat).contains r.id && r.uploaded_by == 1)) :=
  (bulk_delete_guarded store9 1 [2] true).2.2 1 ["b.txt"] rfl

/-- A file that passes `validate_file` has a `get_file_type` in the
extension allow-list. -/
theorem validate_file_ok_file_type (f : UploadedFile)
    (h : validate_file f = Except.ok ()) :
    get_file_type f.name ∈ allowed_extensions := by
  unfold validate_file at h
  by_cases hsize : f.size > 100 * 1024 * 1024
  · simp [hsize] at h
  · simp only [hsize, if_false] at h
    by_cases hdot : pyContainsChar f.name '.'
    · simp only [hdot, if_true] at h
      by_cases hca : pyLower (pyLastSplitDot f.name) ∈ allowed_extensions
      · unfold get_file_type
        rw [if_pos hdot]
        exact hca
      · simp [hca] at h
    · simp only [hdot, if_false] at h
      simp [allowed_extensions] at h

/-- C10 (amended): an uploaded file whose name contains no `.` always
fails `validate_file` (the empty extension is outside the allow-list);
and a request that omits `original_filename` — a required serializer
field (from the model's `CharField`, `blank=False`, no default) — is
rejected with the generic 500 and stores nothing, so no record can
acquire `file_type = "unknown"` from the uploaded file's own name.
(Supplying an explicit extensionless `original_filename` alongside a
validly named file does store a record with `file_type = "unknown"`,
because `validate_original_filename` checks only emptiness, traversal
characters and length.) -/
theorem extensionless_name_fails_validation :
    (∀ f : UploadedFile, pyContainsChar f.name '.' = false →
      ∃ e, validate_file f = Except.error e)
    ∧ (∀ (digest : List Nat → String) (store : Store) (user nextId now : Nat)
        (f : UploadedFile),
      single_file_upload digest store user nextId now f none
        = (store, UploadResponse.serverError "File upload failed. Please try again.")) := by
  constructor
  · intro f hdot
    unfold validate_file
    by_cases hsize : f.size > 100 * 1024 * 1024
    · exact ⟨"File size exceeds maximum allowed size.", by simp [hsize]⟩
    · refine ⟨"File type ." ++ "" ++ " is not allowed.", ?_⟩
      simp [hsize, hdot, allowed_extensions]
  · intro digest store user nextId now f
    unfold single_file_upload
    cases hvf : validate_file f with
    | error e => rfl
    | ok u => rfl

/-- Witness for the amended C10: the extensionless name `README` is
rejected by `validate_file`, and uploading `fileA` without the required
`original_filename` is rejected outright, storing nothing. -/
theorem extensionless_name_fails_validation_witness :
    (∃ e, validate_file
        { name := "README", content_type := "text/plain", size := 1, chunks := [[0]] }
      = Except.error e)
    ∧ single_file_upload digest0 [] 1 1 0 fileA none
        = ([], UploadResponse.serverError "File upload failed. Please try again.") :=
  ⟨extensionless_name_fails_validation.1
      { name := "README", content_type := "text/plain", size := 1, chunks := [[0]] } rfl,
   extensionless_name_fails_validation.2 digest0 [] 1 1 0 fileA⟩

/-- Counterexample to C10 as stated: uploading a valid `.pdf` file while
supplying the explicit extensionless `original_filename "README"` passes
every serializer validation and stores a record with
`fileType = "unknown"`. -/
theorem unknown_file_type_reachable_counterexample :
    ((single_file_upload digest0 [] 1 1 0 filePdf (some "README")).1.map
        (fun r => r.file_type)) = ["unknown"]
    ∧ (single_file_upload digest0 [] 1 1 0 filePdf (some "README")).2
        = UploadResponse.created [1] :=
  ⟨rfl, rfl⟩
